import Mathlib

/-!
Shallow embedding of the SMS-webhook service (src/app.py) and proofs about it.

The core of the program is the `sms_webhook` Flask handler:
  * an eligibility gate: `message.lower().startswith("upi credit")` (line 58),
  * four independent regular-expression searches extracting amount,
    transaction id, counterparty name and event timestamp (lines 69-83),
  * a bounded, newest-first recent-history cache `RECENT_ENTRIES`,
    a `deque` with `maxlen=5` mutated by `appendleft` (lines 26-27, 110-111),
  * best-effort MongoDB persistence whose failures are swallowed
    (lines 61-65 and 113-135),
  * a catch-all exception boundary returning status 500 (lines 140-142).

The regular expressions are embedded as explicit backtracking matchers over
`List Char`, with Python semantics restricted to ASCII (the character classes
`\w`, `\s`, `[A-Z]`, `\d` and `str.lower` are modelled on the ASCII range,
which covers every message shape the program targets).  `re.search` is
leftmost search: the match is attempted at every start position in order.
Python `float` applied to a captured numeral of shape digits
optionally-dot-digits is modelled exactly as a rational number; for the
two-decimal amounts the program extracts this coincides with the decimal
value the specification states.
-/

/-- ASCII model of the Python regex class `\d`. -/
def isDigitCh (c : Char) : Bool :=
  decide (48 ≤ c.toNat) && decide (c.toNat ≤ 57)

/-- ASCII model of the Python regex class `[A-Z]`. -/
def isUpperCh (c : Char) : Bool :=
  decide (65 ≤ c.toNat) && decide (c.toNat ≤ 90)

/-- ASCII lowercase letter test, used to build uppercase casings. -/
def isLowerCh (c : Char) : Bool :=
  decide (97 ≤ c.toNat) && decide (c.toNat ≤ 122)

/-- ASCII letter test. -/
def isAlphaCh (c : Char) : Bool :=
  isUpperCh c || isLowerCh c

/-- ASCII model of the Python regex class `\w`: letter, digit or underscore. -/
def isWordCh (c : Char) : Bool :=
  isAlphaCh c || isDigitCh c || c == '_'

/-- ASCII model of the Python regex class `\s`: space, tab, newline,
vertical tab, form feed, carriage return. -/
def isSpaceCh (c : Char) : Bool :=
  c == ' ' || c == '\t' || c == '\n' || c == '\x0b' || c == '\x0c' || c == '\r'

/-- ASCII model of Python `str.lower` applied to one character:
uppercase letters are shifted into the lowercase range, everything else is
unchanged. -/
def lowerCh (c : Char) : Char :=
  if isUpperCh c then Char.ofNat (c.toNat + 32) else c

/-- Shift an ASCII lowercase letter to uppercase; used only to enumerate the
casings of the literal eligibility gate text. -/
def upCh (c : Char) : Char :=
  if isLowerCh c then Char.ofNat (c.toNat - 32) else c

/-- Model of Python `str.startswith` on character lists: the first argument
is the pattern, the second the text. -/
def startsWithL : List Char → List Char → Bool
  | [], _ => true
  | _ :: _, [] => false
  | p :: ps, c :: cs => c == p && startsWithL ps cs

/-- Model of `re.search` position scanning: attempt the position matcher `f`
on every suffix of the text, leftmost first, and return the first success. -/
def searchWith (f : List Char → Option α) : List Char → Option α
  | [] => f []
  | c :: rest => (f (c :: rest)).orElse (fun _ => searchWith f rest)

/-- Numeric value of a run of ASCII digits. -/
def natOfDigits (l : List Char) : ℕ :=
  l.foldl (fun a c => 10 * a + (c.toNat - 48)) 0

/-- Model of Python `float` applied to a captured numeral of the shape
produced by the amount pattern (digits, optionally a dot and one or two
digits).  The value is kept as an exact rational; for such two-decimal
numerals the program's use of the value in its JSON response is the decimal
value itself. -/
def pyFloat (l : List Char) : ℚ :=
  let ip := l.takeWhile (fun c => c != '.')
  let fp := (l.dropWhile (fun c => c != '.')).drop 1
  mkRat (natOfDigits ip * 10 ^ fp.length + natOfDigits fp) (10 ^ fp.length)

/-- The optional fractional tail of the amount pattern, the regex fragment
a dot followed by one or two digits, greedy: two digits are preferred over
one, and if no digit follows the dot the optional group matches empty. -/
def amountFrac : List Char → List Char
  | '.' :: d1 :: d2 :: _ =>
      if isDigitCh d1 then
        (if isDigitCh d2 then ['.', d1, d2] else ['.', d1])
      else []
  | ['.', d1] => if isDigitCh d1 then ['.', d1] else []
  | _ => []

/-- After the literal `Rs` and the optional dot: one or more digits
(greedy) followed by the optional fractional tail; returns the captured
group. -/
def amountCore (l : List Char) : Option (List Char) :=
  let s := l.span isDigitCh
  if s.1.isEmpty then none else some (s.1 ++ amountFrac s.2)

/-- Position matcher for the amount pattern of src/app.py line 70:
the literal `R` then `s`, an optional dot (tried greedily, with the
backtracking alternative of not consuming it), then the captured numeral. -/
def matchAmountAt : List Char → Option (List Char)
  | 'R' :: 's' :: rest =>
      (match rest with
        | '.' :: r2 => amountCore r2
        | _ => none).orElse (fun _ => amountCore rest)
  | _ => none

/-- Amount extraction (src/app.py lines 70-71): leftmost search for the
amount pattern, then Python `float` on the captured group. -/
def amountOf (s : String) : Option ℚ :=
  (searchWith matchAmountAt s.data).map pyFloat

/-- Match a literal character list at the head of the text, returning the
remainder. -/
def stripLit : List Char → List Char → Option (List Char)
  | [], l => some l
  | _ :: _, [] => none
  | p :: ps, c :: cs => if c == p then stripLit ps cs else none

/-- Position matcher for the transaction-id pattern of src/app.py line 74:
the literal `Info:UPI/`, one or more uppercase letters, a slash, one or more
captured digits, a slash.  The quantified classes are disjoint from the
slash that follows them, so greedy maximal runs need no backtracking. -/
def matchTxnAt (l : List Char) : Option (List Char) := do
  let r1 ← stripLit ("Info:UPI/".data) l
  let su := r1.span isUpperCh
  if su.1.isEmpty then none else
  match su.2 with
  | '/' :: r3 =>
    let sd := r3.span isDigitCh
    if sd.1.isEmpty then none else
    match sd.2 with
    | '/' :: _ => some sd.1
    | _ => none
  | _ => none

/-- Transaction-id extraction (src/app.py lines 74-75). -/
def txnOf (s : String) : Option String :=
  (searchWith matchTxnAt s.data).map (fun l => ⟨l⟩)

/-- The tail of the name pattern after the captured group: one or more
whitespace characters, the literal `on`, one or more whitespace characters,
then a digit. -/
def tailOn (l : List Char) : Bool :=
  let s1 := l.span isSpaceCh
  if s1.1.isEmpty then false else
  match s1.2 with
  | 'o' :: 'n' :: r2 =>
    let s2 := r2.span isSpaceCh
    if s2.1.isEmpty then false else
    match s2.2 with
    | d :: _ => isDigitCh d
    | [] => false
  | _ => false

/-- Backtracking loop for the greedy group of the name pattern
(src/app.py line 78): the group body is a run of word-or-space characters.
At each character the matcher first tries to extend the group (greedy),
and on failure of everything longer it tries to end the group here and
match the tail pattern on the remaining text, so longer captures are
preferred exactly as in Python. -/
def nameGroup (acc : List Char) : List Char → Option (List Char)
  | [] => none
  | c :: rest =>
    if isWordCh c || isSpaceCh c then
      (nameGroup (acc ++ [c]) rest).orElse
        (fun _ => if tailOn (c :: rest) then some acc else none)
    else
      if tailOn (c :: rest) then some acc else none

/-- Position matcher for the name pattern of src/app.py line 78: a slash,
then a captured group starting with a word character followed by a greedy
run of word-or-space characters, then whitespace, `on`, whitespace and a
digit. -/
def matchNameAt : List Char → Option (List Char)
  | '/' :: c :: rest => if isWordCh c then nameGroup [c] rest else none
  | _ => none

/-- ASCII model of Python `str.strip`: drop whitespace from both ends. -/
def pyStrip (l : List Char) : List Char :=
  ((l.dropWhile isSpaceCh).reverse.dropWhile isSpaceCh).reverse

/-- Name extraction (src/app.py lines 78-79): leftmost search for the name
pattern, then `strip` on the captured group. -/
def nameOf (s : String) : Option String :=
  (searchWith matchNameAt s.data).map (fun l => ⟨pyStrip l⟩)

/-- Exactly two digits, returning them and the remainder. -/
def take2Digits : List Char → Option (List Char × List Char)
  | d1 :: d2 :: rest =>
      if isDigitCh d1 && isDigitCh d2 then some ([d1, d2], rest) else none
  | _ => none

/-- Position matcher for the timestamp pattern of src/app.py line 82: the
literal `on`, whitespace, then the captured group: two digits, dash, two
digits, dash, two digits, whitespace, two digits, colon, two digits, colon,
two digits.  The whitespace runs are greedy and followed by a digit, so no
backtracking arises; the inner whitespace run is captured as matched. -/
def matchTsAt : List Char → Option (List Char)
  | 'o' :: 'n' :: rest =>
    let s1 := rest.span isSpaceCh
    if s1.1.isEmpty then none else do
      let p1 ← take2Digits s1.2
      match p1.2 with
      | '-' :: r3 => do
        let p2 ← take2Digits r3
        match p2.2 with
        | '-' :: r5 => do
          let p3 ← take2Digits r5
          let s2 := p3.2.span isSpaceCh
          if s2.1.isEmpty then none else do
            let p4 ← take2Digits s2.2
            match p4.2 with
            | ':' :: r9 => do
              let p5 ← take2Digits r9
              match p5.2 with
              | ':' :: r11 => do
                let p6 ← take2Digits r11
                some (p1.1 ++ '-' :: p2.1 ++ '-' :: p3.1 ++ s2.1 ++
                      p4.1 ++ ':' :: p5.1 ++ ':' :: p6.1)
              | _ => none
            | _ => none
        | _ => none
      | _ => none
  | _ => none

/-- Timestamp extraction (src/app.py lines 82-83). -/
def tsOf (s : String) : Option String :=
  (searchWith matchTsAt s.data).map (fun l => ⟨l⟩)

/-- The eligibility gate of src/app.py line 58:
`message.lower().startswith("upi credit")`. -/
def eligible (s : String) : Bool :=
  startsWithL ("upi credit".data) (s.data.map lowerCh)

/-- The structured parse result assembled at src/app.py lines 85-92. -/
structure ParsedTransaction where
  name : Option String
  transaction_id : Option String
  amount : Option ℚ
  timestamp : Option String
  raw_sms : String
  received_at : String
deriving DecidableEq

/-- The pure parsing core of the handler (src/app.py lines 57-92): the
eligibility gate followed by the four independent field extractions.
`none` is the NotApplicable signal (the line-67 early return); on success
every field of the result is computed by its own pattern search over the
message, the raw message is stored verbatim and the received-at string is
passed through. -/
def parseMessage (message received_at : String) : Option ParsedTransaction :=
  if eligible message then
    some ⟨nameOf message, txnOf message, amountOf message, tsOf message,
          message, received_at⟩
  else none

/-- Model of the Python truthiness fallback `value or default` used on
strings at src/app.py lines 54-55: a missing field (`None`) and an empty
string both fall through to the default. -/
def pyOr (v : Option String) (dflt : String) : String :=
  match v with
  | some s => if s == "" then dflt else s
  | none => dflt

/-- Message resolution of src/app.py line 54:
`data.get("key") or data.get("msg") or ""`. -/
def resolveMessage (key msg : Option String) : String :=
  pyOr key (pyOr msg "")

/-- The three response bodies the handler can produce: the empty body of
the line-67 rejection, the success body of line 97 carrying the parsed
transaction, and the error body of line 142 carrying the exception
message. -/
inductive RespBody where
  | empty : RespBody
  | success : ParsedTransaction → RespBody
  | error : String → RespBody
deriving DecidableEq

/-- One record of the recent-history cache (src/app.py lines 100-109).
The request snapshot stored in the real entry (headers, form, json) is
modelled by the three resolved form fields; headers and the json echo are
opaque to every claim. -/
structure HEntry where
  received_at : String
  reqKey : Option String
  reqMsg : Option String
  reqTime : Option String
  parsed : ParsedTransaction
  response : RespBody
deriving DecidableEq

/-- The observable outcome of one request: HTTP status, response body, the
recent-history cache after the request, and whether the best-effort
MongoDB write went through (its only observable effect; it is never part
of the response). -/
structure HandlerResult where
  status : ℕ
  body : RespBody
  cache : List HEntry
  persisted : Bool
deriving DecidableEq

/-- `RECENT_ENTRIES.appendleft e` on a `deque(maxlen=5)`
(src/app.py lines 27 and 111): the entry goes to the front and anything
beyond the five newest is silently dropped from the tail. -/
def pushRecent (e : α) (c : List α) : List α :=
  (e :: c).take 5

/-- `list(RECENT_ENTRIES)` (src/app.py line 158): an immutable copy of the
current contents, newest first. -/
def snapshot (c : List α) : List α := c

/-- The `sms_webhook` handler body (src/app.py lines 48-138) on a request
whose form fields resolved to `key`, `msg` and `time`, with `now` the
current wall-clock string, starting from cache state `cache`.
`persistFails` models the MongoDB insert raising, `mongoConfigured`
models `mongo_db is not None`; both branches swallow persistence failures
(lines 61-65 and 115-135), so neither argument reaches the response.
An ineligible message returns the empty body with status 400 without
touching the cache; an eligible one builds the parsed record, pushes a
history entry and returns the success body with status 200. -/
def sms_webhook (key msg time : Option String) (now : String)
    (persistFails mongoConfigured : Bool) (cache : List HEntry) :
    HandlerResult :=
  let message := resolveMessage key msg
  let rawTime := pyOr time now
  match parseMessage message rawTime with
  | none => ⟨400, RespBody.empty, cache, mongoConfigured && !persistFails⟩
  | some parsed =>
    let responseBody := RespBody.success parsed
    let entry : HEntry :=
      ⟨parsed.received_at, key, msg, time, parsed, responseBody⟩
    ⟨200, responseBody, pushRecent entry cache,
     mongoConfigured && !persistFails⟩

/-- The exception boundary of src/app.py lines 48 and 140-142: the whole
handler body runs inside one `try`; `exc = some e` models an unexpected
exception with message `e` raised during field extraction or response
assembly, which the `except` clause turns into a status-500 error body.
The function is total: no exception propagates out of the handler. -/
def sms_webhook_boundary (exc : Option String) (key msg time : Option String)
    (now : String) (persistFails mongoConfigured : Bool)
    (cache : List HEntry) : HandlerResult :=
  match exc with
  | some e => ⟨500, RespBody.error e, cache, false⟩
  | none => sms_webhook key msg time now persistFails mongoConfigured cache

/-- Does the lowercased text start with the literal of the eligibility
gate?  Used to locate occurrences of the literal anywhere in a message. -/
def lowerStartsUpi (l : List Char) : Bool :=
  startsWithL ("upi credit".data) (l.map lowerCh)

/-- Modelled from the spec: the normalization step the specification
describes for the eligibility gate — "discarding everything before the
first occurrence" of the literal, case-insensitively — which is absent
from src/app.py.  It is defined here only to state that the code does not
implement it. -/
def specDropToFirst : List Char → List Char
  | [] => []
  | c :: rest =>
      if lowerStartsUpi (c :: rest) then c :: rest else specDropToFirst rest

/-- Modelled from the spec: normalization of a message by re-anchoring at
the first case-insensitive occurrence of the gate literal. -/
def specNormalizeMessage (s : String) : String :=
  ⟨specDropToFirst s.data⟩

/-- The lowercase gate literal as a character list. -/
def upiTemplate : List Char := "upi credit".data

/-- Apply a casing choice to a character list: `true` picks the uppercase
variant of the corresponding character. -/
def applyCase : List Bool → List Char → List Char
  | _, [] => []
  | [], cs => cs
  | b :: bs, c :: cs => (if b then upCh c else c) :: applyCase bs cs

/-- One casing of the literal `upi credit`, selected by a list of
booleans, one per character. -/
def mkCasing (bs : List Bool) : String :=
  ⟨applyCase bs upiTemplate⟩

/-- All boolean lists of a given length; `boolLists 10` indexes every
casing of the ten-character gate literal. -/
def boolLists : ℕ → List (List Bool)
  | 0 => [[]]
  | n + 1 => (boolLists n).flatMap (fun l => [true :: l, false :: l])

/-- The concrete scenario-1 message of the specification. -/
def scenario1 : String :=
  "UPI Credit: Rs.500.00 credited to A/c ...Info:UPI/CR/123456789012/ JOHN DOE on 15-03-24 10:30:00"

/-- The parse result assembled for an eligible message (src/app.py lines
85-92), as a function of the message and the received-at string. -/
def parsedOf (m t : String) : ParsedTransaction :=
  ⟨nameOf m, txnOf m, amountOf m, tsOf m, m, t⟩

/-- Truncating to five absorbs an inner truncation to five before an
append: only the first five elements matter. -/
theorem take_append_take (l m : List α) (n : ℕ) :
    (l ++ m.take n).take n = (l ++ m).take n := by
  rw [List.take_append_eq_append_take, List.take_append_eq_append_take,
      List.take_take, Nat.min_eq_left (Nat.sub_le n l.length)]

/-- Folding `appendleft` pushes over a short-enough start state keeps the
five newest entries, newest first. -/
theorem foldl_pushRecent (es : List α) :
    ∀ c : List α, c.take 5 = c →
      es.foldl (fun acc e => pushRecent e acc) c = (es.reverse ++ c).take 5 := by
  induction es with
  | nil => intro c hc; simpa using hc.symm
  | cons e es ih =>
    intro c hc
    have h1 : (pushRecent e c).take 5 = pushRecent e c := by
      simp [pushRecent, List.take_take]
    calc (e :: es).foldl (fun acc x => pushRecent x acc) c
        = es.foldl (fun acc x => pushRecent x acc) (pushRecent e c) := rfl
      _ = (es.reverse ++ pushRecent e c).take 5 := ih _ h1
      _ = (es.reverse ++ (e :: c)).take 5 := by
            simpa [pushRecent] using take_append_take es.reverse (e :: c) 5
      _ = ((e :: es).reverse ++ c).take 5 := by simp

/-- An ineligible message takes the line-67 early return: empty body,
status 400, cache untouched (only the raw-request side log is attempted). -/
theorem sms_webhook_of_ineligible (key msg time : Option String)
    (now : String) (pf mc : Bool) (cache : List HEntry)
    (h : eligible (resolveMessage key msg) = false) :
    sms_webhook key msg time now pf mc cache =
      ⟨400, RespBody.empty, cache, mc && !pf⟩ := by
  simp [sms_webhook, parseMessage, h]

/-- An eligible message takes the success path: the parsed record is built
from the four independent extractions, a history entry is pushed, and the
response is status 200 with the success body, independently of the
persistence outcome. -/
theorem sms_webhook_of_eligible (key msg time : Option String)
    (now : String) (pf mc : Bool) (cache : List HEntry)
    (h : eligible (resolveMessage key msg) = true) :
    sms_webhook key msg time now pf mc cache =
      ⟨200,
       RespBody.success (parsedOf (resolveMessage key msg) (pyOr time now)),
       pushRecent
         (⟨pyOr time now, key, msg, time,
           parsedOf (resolveMessage key msg) (pyOr time now),
           RespBody.success (parsedOf (resolveMessage key msg) (pyOr time now))⟩ : HEntry)
         cache,
       mc && !pf⟩ := by
  simp [sms_webhook, parseMessage, parsedOf, h]

/-- Claim C1, counterexample: the message `SBI: UPI Credit Rs.10` contains
the literal `UPI Credit` away from the start; the normalization the claim
describes would re-anchor it to `UPI Credit Rs.10`, which does start with
the prefix, so under the claim the message would not be NotApplicable —
yet the code returns NotApplicable, because src/app.py line 58 only tests
the original string's start and never discards a sender header. -/
theorem c1_counterexample :
    specNormalizeMessage ("SBI: UPI Credit Rs.10") = "UPI Credit Rs.10" ∧
    eligible ("UPI Credit Rs.10") = true ∧
    parseMessage ("SBI: UPI Credit Rs.10") ("T") = none := by decide

/-- Claim C1 as amended: the eligibility gate performs no normalization or
re-anchoring; the parser returns NotApplicable exactly when the message,
compared case-insensitively, does not itself start with the literal
`UPI Credit`, regardless of any later occurrence of the literal. -/
theorem c1_theorem (m t : String) :
    parseMessage m t = none ↔ eligible m = false := by
  cases h : eligible m <;> simp [parseMessage, h]

/-- Claim C2, counterexample: on the specification's scenario-1 message
the name pattern of src/app.py line 78 does not match (the character after
the last slash is a space, but the captured group must begin with a word
character), so the parsed name is not `JOHN DOE`. -/
theorem c2_counterexample :
    (parseMessage scenario1 ("T")).map ParsedTransaction.name ≠
      some (some ("JOHN DOE")) := by decide

/-- Claim C2 as amended: on the scenario-1 message the parser produces
amount 500.00, transaction id 123456789012 and timestamp
`15-03-24 10:30:00` as claimed, but the name is absent, not `JOHN DOE`. -/
theorem c2_theorem :
    parseMessage scenario1 ("T") =
      some ⟨none, some ("123456789012"), some (500 : ℚ),
            some ("15-03-24 10:30:00"), scenario1, "T"⟩ := by decide

/-- Claim C3: pushing entries E1 ... EN in order into the recent-history
cache and taking a snapshot yields exactly the min(N, 5) most recently
pushed entries, newest first; in particular pushing E1, E2, E3 yields
snapshot [E3, E2, E1]. -/
theorem c3_theorem :
    (∀ (α : Type) (es : List α),
        snapshot (es.foldl (fun c e => pushRecent e c) []) =
          es.reverse.take 5 ∧
        (snapshot (es.foldl (fun c e => pushRecent e c) [])).length =
          min es.length 5) ∧
    snapshot (([1, 2, 3] : List ℕ).foldl (fun c e => pushRecent e c) []) =
      [3, 2, 1] := by
  constructor
  · intro α es
    have h := foldl_pushRecent es ([] : List α) (by simp)
    constructor
    · simpa [snapshot] using h
    · simp [snapshot, h, Nat.min_comm]
  · decide

/-- Claim C4: for every eligible message each of the four fields is
computed by its own pattern search alone — the parse result is literally
the tuple of the four independent extractions, with the raw message and
the received-at string passed through verbatim; a field whose pattern
fails is `none`, never a placeholder. -/
theorem c4_theorem (m t : String) (h : eligible m = true) :
    parseMessage m t = some ⟨nameOf m, txnOf m, amountOf m, tsOf m, m, t⟩ := by
  simp [parseMessage, h]

/-- Witness for C4 at the specification's amount-only scenario: an
eligible message with an amount but no transaction segment and no
timestamp clause parses to amount 250 with the other three fields absent
and the raw message preserved. -/
theorem c4_witness :
    eligible ("UPI Credit: Rs.250 credited") = true ∧
    parseMessage ("UPI Credit: Rs.250 credited") ("T") =
      some ⟨none, none, some (250 : ℚ), none,
            "UPI Credit: Rs.250 credited", "T"⟩ :=
  ⟨by decide,
   (c4_theorem ("UPI Credit: Rs.250 credited") ("T") (by decide)).trans
     (by decide)⟩

/-- Claim C5: a request whose message fails the gate is answered
NotApplicable and leaves the recent-history cache exactly as it was: no
entry is created, no push happens. -/
theorem c5_theorem (key msg time : Option String) (now : String)
    (pf mc : Bool) (cache : List HEntry)
    (h : eligible (resolveMessage key msg) = false) :
    sms_webhook key msg time now pf mc cache =
      ⟨400, RespBody.empty, cache, mc && !pf⟩ :=
  sms_webhook_of_ineligible key msg time now pf mc cache h

/-- Witness for C5 at the specification's scenario-2 message. -/
theorem c5_witness :
    eligible (resolveMessage (some ("Your OTP is 4321")) none) = false ∧
    sms_webhook (some ("Your OTP is 4321")) none none ("N") false false [] =
      ⟨400, RespBody.empty, [], false⟩ :=
  ⟨by decide,
   (c5_theorem (some ("Your OTP is 4321")) none none ("N") false false []
     (by decide)).trans (by decide)⟩

/-- Claim C6: every request failing the eligibility gate is answered with
status 400 and an empty body — the code applies this one documented
policy uniformly (the 200-with-reason alternative never occurs). -/
theorem c6_theorem (key msg time : Option String) (now : String)
    (pf mc : Bool) (cache : List HEntry)
    (h : eligible (resolveMessage key msg) = false) :
    (sms_webhook key msg time now pf mc cache).status = 400 ∧
    (sms_webhook key msg time now pf mc cache).body = RespBody.empty := by
  rw [sms_webhook_of_ineligible key msg time now pf mc cache h]
  exact ⟨rfl, rfl⟩

/-- Witness for C6. -/
theorem c6_witness :
    eligible (resolveMessage none (some ("Hello"))) = false ∧
    ((sms_webhook none (some ("Hello")) none ("N") true true []).status = 400 ∧
     (sms_webhook none (some ("Hello")) none ("N") true true []).body =
       RespBody.empty) :=
  ⟨by decide, c6_theorem none (some ("Hello")) none ("N") true true [] (by decide)⟩

/-- Claim C7: for an eligible request the status, body and cache effect
are identical across any two persistence outcomes (write failing or not,
collaborator configured or not), and with an always-failing persistence
sink the response is still status 200 with the correct success body: no
persistence failure reaches the caller. -/
theorem c7_theorem (key msg time : Option String) (now : String)
    (p1 p2 mc1 mc2 : Bool) (cache : List HEntry)
    (h : eligible (resolveMessage key msg) = true) :
    (sms_webhook key msg time now p1 mc1 cache).status =
        (sms_webhook key msg time now p2 mc2 cache).status ∧
    (sms_webhook key msg time now p1 mc1 cache).body =
        (sms_webhook key msg time now p2 mc2 cache).body ∧
    (sms_webhook key msg time now p1 mc1 cache).cache =
        (sms_webhook key msg time now p2 mc2 cache).cache ∧
    (sms_webhook key msg time now true mc1 cache).status = 200 ∧
    (sms_webhook key msg time now true mc1 cache).body =
      RespBody.success (parsedOf (resolveMessage key msg) (pyOr time now)) := by
  rw [sms_webhook_of_eligible key msg time now p1 mc1 cache h,
      sms_webhook_of_eligible key msg time now p2 mc2 cache h,
      sms_webhook_of_eligible key msg time now true mc1 cache h]
  exact ⟨rfl, rfl, rfl, rfl, rfl⟩

/-- Witness for C7: with the persistence write always failing, the
response to an eligible request is still status 200. -/
theorem c7_witness :
    eligible (resolveMessage (some ("UPI Credit Rs.5")) none) = true ∧
    (sms_webhook (some ("UPI Credit Rs.5")) none none ("N") true true []).status = 200 :=
  ⟨by decide,
   (c7_theorem (some ("UPI Credit Rs.5")) none none ("N") true true true true []
     (by decide)).2.2.2.1⟩

/-- Claim C8: an unexpected exception with message `e` raised inside the
handler during field extraction or response assembly is caught by the
boundary of src/app.py lines 140-142 and answered with status 500 and the
error body carrying `e`; the boundary is a total function, so the
exception never propagates to the caller. -/
theorem c8_theorem (e : String) (key msg time : Option String)
    (now : String) (pf mc : Bool) (cache : List HEntry) :
    sms_webhook_boundary (some e) key msg time now pf mc cache =
      ⟨500, RespBody.error e, cache, false⟩ := rfl

/-- Claim C10: when both message fields are missing or empty the resolved
message is the empty string, the gate rejects it, and the request is
answered 400 with an empty body, the cache untouched; the handler is a
total function of the optional fields, so a missing field never raises. -/
theorem c10_theorem (key msg time : Option String) (now : String)
    (pf mc : Bool) (cache : List HEntry)
    (hk : key = none ∨ key = some (""))
    (hm : msg = none ∨ msg = some ("")) :
    resolveMessage key msg = ("") ∧
    sms_webhook key msg time now pf mc cache =
      ⟨400, RespBody.empty, cache, mc && !pf⟩ := by
  have hres : resolveMessage key msg = ("") := by
    rcases hk with rfl | rfl <;> rcases hm with rfl | rfl <;> decide
  refine ⟨hres, ?_⟩
  apply sms_webhook_of_ineligible
  rw [hres]
  decide

/-- Witness for C10: key missing, msg empty. -/
theorem c10_witness :
    ((none : Option String) = none ∨ (none : Option String) = some ("")) ∧
    ((some ("") : Option String) = none ∨ (some ("") : Option String) = some ("")) ∧
    (resolveMessage none (some ("")) = ("") ∧
     sms_webhook none (some ("")) none ("N") true true [] =
       ⟨400, RespBody.empty, [], true && !true⟩) :=
  ⟨Or.inl rfl, Or.inr rfl,
   c10_theorem none (some ("")) none ("N") true true [] (Or.inl rfl)
     (Or.inr rfl)⟩

/-- Every element of `boolLists n` has length `n`. -/
theorem boolLists_length : ∀ (n : ℕ) (bs : List Bool),
    bs ∈ boolLists n → bs.length = n := by
  intro n
  induction n with
  | zero =>
    intro bs h
    simp [boolLists] at h
    subst h
    rfl
  | succ n ih =>
    intro bs h
    simp only [boolLists, List.mem_flatMap, List.mem_cons,
      List.mem_singleton] at h
    obtain ⟨l, hl, hbs⟩ := h
    rcases hbs with rfl | hbs
    · simp [ih l hl]
    · rcases hbs with rfl | hbs
      · simp [ih l hl]
      · cases hbs

set_option maxHeartbeats 16000000 in
/-- Exhaustive check of the prefix-only message over all ten casing
choices: the handler accepts it, every extracted field is absent, the raw
message and the supplied time are preserved, and the response is the
status-200 success body. -/
theorem casedGateAccepted : ∀ (b0 b1 b2 b3 b4 b5 b6 b7 b8 b9 : Bool),
    sms_webhook (some (mkCasing [b0, b1, b2, b3, b4, b5, b6, b7, b8, b9]))
        none (some ("T")) ("N") false false [] =
      ⟨200,
       RespBody.success
         ⟨none, none, none, none,
          mkCasing [b0, b1, b2, b3, b4, b5, b6, b7, b8, b9], "T"⟩,
       [⟨"T", some (mkCasing [b0, b1, b2, b3, b4, b5, b6, b7, b8, b9]), none,
         some ("T"),
         ⟨none, none, none, none,
          mkCasing [b0, b1, b2, b3, b4, b5, b6, b7, b8, b9], "T"⟩,
         RespBody.success
           ⟨none, none, none, none,
            mkCasing [b0, b1, b2, b3, b4, b5, b6, b7, b8, b9], "T"⟩⟩],
       false⟩ := by decide

/-- Claim C9: a message that is exactly the gate literal in any casing
(each of the ten characters independently upper or lower) passes the
eligibility gate; all four optional fields of the resulting parse are
absent, the raw message equals the message text, the received-at equals
the supplied time, and the request is answered with status 200 and the
success body. -/
theorem c9_theorem : ∀ bs ∈ boolLists 10,
    sms_webhook (some (mkCasing bs)) none (some ("T")) ("N") false false [] =
      ⟨200,
       RespBody.success ⟨none, none, none, none, mkCasing bs, "T"⟩,
       [⟨"T", some (mkCasing bs), none, some ("T"),
         ⟨none, none, none, none, mkCasing bs, "T"⟩,
         RespBody.success ⟨none, none, none, none, mkCasing bs, "T"⟩⟩],
       false⟩ := by
  intro bs hmem
  have hlen : bs.length = 10 := boolLists_length 10 bs hmem
  rcases bs with _ | ⟨b0, bs⟩
  · simp only [List.length_nil] at hlen; omega
  rcases bs with _ | ⟨b1, bs⟩
  · simp only [List.length_cons, List.length_nil] at hlen; omega
  rcases bs with _ | ⟨b2, bs⟩
  · simp only [List.length_cons, List.length_nil] at hlen; omega
  rcases bs with _ | ⟨b3, bs⟩
  · simp only [List.length_cons, List.length_nil] at hlen; omega
  rcases bs with _ | ⟨b4, bs⟩
  · simp only [List.length_cons, List.length_nil] at hlen; omega
  rcases bs with _ | ⟨b5, bs⟩
  · simp only [List.length_cons, List.length_nil] at hlen; omega
  rcases bs with _ | ⟨b6, bs⟩
  · simp only [List.length_cons, List.length_nil] at hlen; omega
  rcases bs with _ | ⟨b7, bs⟩
  · simp only [List.length_cons, List.length_nil] at hlen; omega
  rcases bs with _ | ⟨b8, bs⟩
  · simp only [List.length_cons, List.length_nil] at hlen; omega
  rcases bs with _ | ⟨b9, bs⟩
  · simp only [List.length_cons, List.length_nil] at hlen; omega
  rcases bs with _ | ⟨b10, bs⟩
  · exact casedGateAccepted b0 b1 b2 b3 b4 b5 b6 b7 b8 b9
  · simp only [List.length_cons, List.length_nil] at hlen; omega

/-- Witness for C9 at the all-uppercase casing `UPI CREDIT`. -/
theorem c9_witness :
    [true, true, true, true, true, true, true, true, true, true] ∈
      boolLists 10 ∧
    sms_webhook
        (some (mkCasing
          [true, true, true, true, true, true, true, true, true, true]))
        none (some ("T")) ("N") false false [] =
      ⟨200,
       RespBody.success
         ⟨none, none, none, none,
          mkCasing
            [true, true, true, true, true, true, true, true, true, true],
          "T"⟩,
       [⟨"T",
         some (mkCasing
           [true, true, true, true, true, true, true, true, true, true]),
         none, some ("T"),
         ⟨none, none, none, none,
          mkCasing
            [true, true, true, true, true, true, true, true, true, true],
          "T"⟩,
         RespBody.success
           ⟨none, none, none, none,
            mkCasing
              [true, true, true, true, true, true, true, true, true, true],
            "T"⟩⟩],
       false⟩ :=
  ⟨by decide,
   c9_theorem [true, true, true, true, true, true, true, true, true, true]
     (by decide)⟩
